import Mathlib

/-!
Verification development for the expense-tracker ledger core.

The storage layer of the repository exists in three variants:
`MemStorage` (in-memory maps), `DatabaseStorage` (drizzle/PostgreSQL) and
`SupabaseStorage` (supabase client).  Each is embedded below as pure
state-passing functions.  JavaScript numbers are modelled as exact
rationals (ℚ); JavaScript truthiness tests (`x || y`, `if (x)`) on
numbers and strings are modelled explicitly, because several behaviours
depend on `0` and `""` being falsy.  Calendar dates are modelled as
year/month/day triples; comparison of `Date` values via `getTime()`,
date-fns `isAfter`/`isBefore`/`isSameDay`, and SQL `DATE` comparison all
reduce to comparison of epoch-day numbers for the day-precision dates the
application stores.
-/

namespace ExpenseTracker

/-- A calendar date: year, month (1–12) and day of month, as produced by
JavaScript `Date` accessors (`getFullYear`, `getMonth`+1, `getDate`). -/
structure CalDate where
  year : Int
  month : Nat
  day : Nat
deriving DecidableEq, Repr

/-- Days since 1970-01-01 for a civil date (Howard Hinnant's
`days_from_civil` algorithm, as used by every real date library).  This is
the value `Date.getTime()` is proportional to for midnight dates, so
comparing `epochDays` models comparing JavaScript dates. -/
def CalDate.epochDays (d : CalDate) : Int :=
  let y : Int := if d.month ≤ 2 then d.year - 1 else d.year
  let era : Int := (if 0 ≤ y then y else y - 399).ediv 400
  let yoe : Int := y - era * 400
  let mp : Int := if 2 < d.month then (d.month : Int) - 3 else (d.month : Int) + 9
  let doy : Int := (153 * mp + 2).ediv 5 + (d.day : Int) - 1
  let doe : Int := yoe * 365 + yoe.ediv 4 - yoe.ediv 100 + doy
  era * 146097 + doe - 719468

/-- Inverse of `CalDate.epochDays` (Hinnant's `civil_from_days`). -/
def CalDate.ofEpochDays (z0 : Int) : CalDate :=
  let z := z0 + 719468
  let era := (if 0 ≤ z then z else z - 146096).ediv 146097
  let doe := z - era * 146097
  let yoe := (doe - doe.ediv 1460 + doe.ediv 36524 - doe.ediv 146096).ediv 365
  let y := yoe + era * 400
  let doy := doe - (365 * yoe + yoe.ediv 4 - yoe.ediv 100)
  let mp := (5 * doy + 2).ediv 153
  let dd := doy - (153 * mp + 2).ediv 5 + 1
  let m := if mp < 10 then mp + 3 else mp - 9
  { year := if m ≤ 2 then y + 1 else y, month := m.toNat, day := dd.toNat }

/-- `date-fns addDays`. -/
def CalDate.addDays (d : CalDate) (n : Int) : CalDate :=
  CalDate.ofEpochDays (d.epochDays + n)

/-- Day of week, 0 = Sunday … 6 = Saturday (1970-01-01 was a Thursday). -/
def CalDate.weekday (d : CalDate) : Int :=
  (d.epochDays + 4).emod 7

/-- Gregorian leap-year rule. -/
def isLeapYear (y : Int) : Bool :=
  decide (y % 4 = 0 ∧ (¬ y % 100 = 0 ∨ y % 400 = 0))

/-- Number of days in a calendar month. -/
def daysInMonth (y : Int) (m : Nat) : Nat :=
  match m with
  | 1 => 31
  | 2 => if isLeapYear y then 29 else 28
  | 3 => 31
  | 4 => 30
  | 5 => 31
  | 6 => 30
  | 7 => 31
  | 8 => 31
  | 9 => 30
  | 10 => 31
  | 11 => 30
  | 12 => 31
  | _ => 30

/-- `date-fns startOfMonth`. -/
def startOfMonth (d : CalDate) : CalDate := { year := d.year, month := d.month, day := 1 }

/-- `date-fns endOfMonth`. -/
def endOfMonth (d : CalDate) : CalDate :=
  { year := d.year, month := d.month, day := daysInMonth d.year d.month }

/-- `date-fns subMonths(d, n)`: steps the month back, clamping the day to
the length of the target month. -/
def subMonths (d : CalDate) (n : Nat) : CalDate :=
  match n, d.month with
  | 0, _ => d
  | Nat.succ k, 1 =>
    let y := d.year - 1
    subMonths { year := y, month := 12, day := min d.day (daysInMonth y 12) } k
  | Nat.succ k, m =>
    subMonths { year := d.year, month := m - 1, day := min d.day (daysInMonth d.year (m - 1)) } k

/-- `date-fns startOfWeek(d, weekStartsOn = 1)`: most recent Monday. -/
def startOfWeekMonday (d : CalDate) : CalDate :=
  d.addDays (-((d.weekday - 1 + 7).emod 7))

/-- `date-fns endOfWeek(d, weekStartsOn = 1)`: the Sunday ending the week. -/
def endOfWeekMonday (d : CalDate) : CalDate :=
  (startOfWeekMonday d).addDays 6

/-- `date-fns subWeeks(d, n)`. -/
def subWeeks (d : CalDate) (n : Nat) : CalDate :=
  d.addDays (-(7 * (n : Int)))

/-- `new Date(0)`: the Unix epoch. -/
def epochDate : CalDate := { year := 1970, month := 1, day := 1 }

/-- An account row (`accounts` table / `MemStorage.accounts`).  `balance`
models the JavaScript double as an exact rational. -/
structure Account where
  id : Nat
  name : String
  type : String
  balance : ℚ
  description : Option String
deriving DecidableEq, Repr

/-- An income or expense category row; the two tables have the same shape. -/
structure Category where
  id : Nat
  name : String
  description : Option String
deriving DecidableEq, Repr

/-- A transaction row (`transactions` table). -/
structure Transaction where
  id : Nat
  amount : ℚ
  description : String
  date : CalDate
  accountId : Nat
  type : String
  categoryId : Nat
deriving DecidableEq, Repr

/-- `TransactionWithDetails`: a transaction with the denormalised account
and category names attached at query time. -/
structure TransactionWithDetails extends Transaction where
  accountName : String
  categoryName : String
deriving DecidableEq, Repr

/-- `InsertTransaction`: the validated create payload (no id). -/
structure InsertTransaction where
  amount : ℚ
  description : String
  date : CalDate
  accountId : Nat
  type : String
  categoryId : Nat
deriving DecidableEq, Repr

/-- `Partial<InsertTransaction>`: a patch where each field may be absent. -/
structure TransactionPatch where
  amount : Option ℚ
  description : Option String
  date : Option CalDate
  accountId : Option Nat
  type : Option String
  categoryId : Option Nat
deriving DecidableEq, Repr

/-- `InsertIncomeCategory` / `InsertExpenseCategory` payload. -/
structure InsertCategory where
  name : String
  description : Option String
deriving DecidableEq, Repr

/-- `Partial<InsertIncomeCategory>` patch. -/
structure CategoryPatch where
  name : Option String
  description : Option (Option String)
deriving DecidableEq, Repr

/-- `Partial<InsertAccount>` patch. -/
structure AccountPatch where
  name : Option String
  type : Option String
  balance : Option ℚ
  description : Option (Option String)
deriving DecidableEq, Repr

/-- `timePeriodSchema`: z.enum(["all", "this-week", "last-week",
"this-month", "last-month", "this-year", "custom"]). -/
inductive TimePeriod where
  | all
  | thisWeek
  | lastWeek
  | thisMonth
  | lastMonth
  | thisYear
  | custom
deriving DecidableEq, Repr

/-- `dateRangeSchema`: both bounds are required by the zod schema. -/
structure DateRange where
  startDate : CalDate
  endDate : CalDate
deriving DecidableEq, Repr

/-- JavaScript `p || d` for an optional number: `undefined` and `0` are
falsy and fall back to `d`. -/
def jsOrQ (p : Option ℚ) (d : ℚ) : ℚ :=
  match p with
  | none => d
  | some x => if x = 0 then d else x

/-- JavaScript `p || d` for an optional string: `undefined` and `""` are
falsy and fall back to `d`. -/
def jsOrS (p : Option String) (d : String) : String :=
  match p with
  | none => d
  | some x => if x = "" then d else x

/-- JavaScript `p || d` for an optional numeric id: `undefined` and `0`
are falsy and fall back to `d`. -/
def jsOrN (p : Option Nat) (d : Nat) : Nat :=
  match p with
  | none => d
  | some x => if x = 0 then d else x

/-- JavaScript truthiness of an optional number (`if (p.amount)`). -/
def truthyQ (p : Option ℚ) : Bool :=
  match p with
  | none => false
  | some x => decide (x ≠ 0)

/-- JavaScript truthiness of an optional string (`if (p.type)`). -/
def truthyS (p : Option String) : Bool :=
  match p with
  | none => false
  | some x => decide (x ≠ "")

/-- JavaScript truthiness of an optional numeric id (`if (p.accountId)`). -/
def truthyN (p : Option Nat) : Bool :=
  match p with
  | none => false
  | some x => decide (x ≠ 0)

/-- First element with the given id (`Map.get` / SQL `WHERE id =`). -/
def findAccount (l : List Account) (id : Nat) : Option Account :=
  l.find? (fun a => decide (a.id = id))

/-- First category with the given id. -/
def findCategory (l : List Category) (id : Nat) : Option Category :=
  l.find? (fun c => decide (c.id = id))

/-- First transaction with the given id. -/
def findTransaction (l : List Transaction) (id : Nat) : Option Transaction :=
  l.find? (fun t => decide (t.id = id))

/-- `Map.set` on an existing key / SQL `UPDATE WHERE id =`: replace the
row(s) carrying `a.id` in place. -/
def setAccount (l : List Account) (a : Account) : List Account :=
  l.map (fun x => if x.id = a.id then a else x)

/-- Replace the category row(s) carrying `c.id` in place. -/
def setCategory (l : List Category) (c : Category) : List Category :=
  l.map (fun x => if x.id = c.id then c else x)

/-- Replace the transaction row(s) carrying `t.id` in place. -/
def setTransaction (l : List Transaction) (t : Transaction) : List Transaction :=
  l.map (fun x => if x.id = t.id then t else x)

/-- `Except` success test. -/
def exceptIsOk {ε α : Type} (e : Except ε α) : Bool :=
  match e with
  | Except.ok _ => true
  | Except.error _ => false

/-- The fields of `MemStorage`.  Its JavaScript `Map`s are modelled as
lists that preserve insertion order (`Map.set` on an existing key keeps
the entry's position; on a new key it appends; `Map.delete` removes).
Methods that mutate `this` become functions from state to state; a
JavaScript `throw` is an `Except.error` result, and it does NOT undo
mutations already applied to the state. -/
structure MemState where
  accounts : List Account
  incomeCategories : List Category
  expenseCategories : List Category
  transactions : List Transaction
  accountIdCounter : Nat
  incomeCategoryIdCounter : Nat
  expenseCategoryIdCounter : Nat
  transactionIdCounter : Nat
deriving DecidableEq, Repr

/-- Merge an account patch into a row (`{ ...existingAccount, ...account }`). -/
def mergeAccount (a : Account) (p : AccountPatch) : Account :=
  { id := a.id, name := p.name.getD a.name, type := p.type.getD a.type,
    balance := p.balance.getD a.balance, description := p.description.getD a.description }

/-- `MemStorage.updateAccount`. -/
def memUpdateAccount (s : MemState) (id : Nat) (p : AccountPatch) :
    Option Account × MemState :=
  match findAccount s.accounts id with
  | none => (none, s)
  | some a =>
    let a' := mergeAccount a p
    (some a', { s with accounts := setAccount s.accounts a' })

/-- The account patch `{ balance: b }` used by the transaction methods. -/
def balancePatch (b : ℚ) : AccountPatch :=
  { name := none, type := none, balance := some b, description := none }

/-- Insertion step of `MemStorage.createTransaction` (runs after the
account and category validations have passed). -/
def memCreateTransactionInsert (s : MemState) (t : InsertTransaction) (account : Account) :
    Except String Transaction × MemState :=
  let id := s.transactionIdCounter
  let newTx : Transaction :=
    { id := id, amount := t.amount, description := t.description, date := t.date,
      accountId := t.accountId, type := t.type, categoryId := t.categoryId }
  let s1 := { s with transactions := s.transactions ++ [newTx], transactionIdCounter := id + 1 }
  let newBalance := if t.type = "income" then account.balance + t.amount
                    else account.balance - t.amount
  (Except.ok newTx, (memUpdateAccount s1 account.id (balancePatch newBalance)).2)

/-- `MemStorage.createTransaction`: validates the account, then the
category in the namespace selected by `type`, inserts the transaction and
applies the balance delta to the account. -/
def memCreateTransaction (s : MemState) (t : InsertTransaction) :
    Except String Transaction × MemState :=
  match findAccount s.accounts t.accountId with
  | none =>
    (Except.error ("Account with ID " ++ toString t.accountId ++ " does not exist"), s)
  | some account =>
    if t.type = "income" then
      match findCategory s.incomeCategories t.categoryId with
      | none =>
        (Except.error ("Income category with ID " ++ toString t.categoryId ++ " does not exist"), s)
      | some _ => memCreateTransactionInsert s t account
    else if t.type = "expense" then
      match findCategory s.expenseCategories t.categoryId with
      | none =>
        (Except.error ("Expense category with ID " ++ toString t.categoryId ++ " does not exist"), s)
      | some _ => memCreateTransactionInsert s t account
    else
      (Except.error ("Invalid transaction type: " ++ t.type), s)

/-- Balance-update phase of `MemStorage.updateTransaction` (the source
runs this BEFORE validating the patched category).  Both balance reads
happen before either write, as in the source. -/
def memUpdateTransactionBalances (s : MemState) (existing : Transaction)
    (p : TransactionPatch) : Except String MemState :=
  match p.accountId with
  | some aid =>
    if aid ≠ 0 ∧ aid ≠ existing.accountId then
      -- account changed: revert the old account, apply to the new one
      let oldAccount := findAccount s.accounts existing.accountId
      match findAccount s.accounts aid with
      | none =>
        Except.error ("Account with ID " ++ toString aid ++ " does not exist")
      | some newAccount =>
        let s1 := match oldAccount with
          | none => s
          | some oldA =>
            let oldAccountNewBalance :=
              if existing.type = "income" then oldA.balance - existing.amount
              else oldA.balance + existing.amount
            (memUpdateAccount s oldA.id (balancePatch oldAccountNewBalance)).2
        let amount := jsOrQ p.amount existing.amount
        let ty := jsOrS p.type existing.type
        let newAccountNewBalance :=
          if ty = "income" then newAccount.balance + amount
          else newAccount.balance - amount
        Except.ok (memUpdateAccount s1 newAccount.id (balancePatch newAccountNewBalance)).2
    else
      memUpdateTransactionSameAccount s existing p
  | none => memUpdateTransactionSameAccount s existing p
where
  /-- The `else if` branch: same account, but amount or type changed
  (JavaScript truthiness: a patch amount of `0` or type of `""` does not
  trigger the branch). -/
  memUpdateTransactionSameAccount (s : MemState) (existing : Transaction)
      (p : TransactionPatch) : Except String MemState :=
    let amountChanged := match p.amount with
      | some x => decide (x ≠ 0) && decide (x ≠ existing.amount)
      | none => false
    let typeChanged := match p.type with
      | some ty => decide (ty ≠ "") && decide (ty ≠ existing.type)
      | none => false
    if amountChanged || typeChanged then
      match findAccount s.accounts existing.accountId with
      | none => Except.ok s
      | some account =>
        let accountBalanceAfterRevert :=
          if existing.type = "income" then account.balance - existing.amount
          else account.balance + existing.amount
        let newAmount := jsOrQ p.amount existing.amount
        let newType := jsOrS p.type existing.type
        let newAccountBalance :=
          if newType = "income" then accountBalanceAfterRevert + newAmount
          else accountBalanceAfterRevert - newAmount
        Except.ok (memUpdateAccount s account.id (balancePatch newAccountBalance)).2
    else
      Except.ok s

/-- Category-validation phase of `MemStorage.updateTransaction`; returns
an error message when the (possibly patched) category id does not resolve
in the namespace of the effective type. -/
def memUpdateTransactionValidateCategory (s : MemState) (existing : Transaction)
    (p : TransactionPatch) : Option String :=
  if truthyN p.categoryId && truthyS p.type then
    let cid := p.categoryId.getD 0
    if p.type = some "income" then
      match findCategory s.incomeCategories cid with
      | none => some ("Income category with ID " ++ toString cid ++ " does not exist")
      | some _ => none
    else if p.type = some "expense" then
      match findCategory s.expenseCategories cid with
      | none => some ("Expense category with ID " ++ toString cid ++ " does not exist")
      | some _ => none
    else none
  else if truthyN p.categoryId then
    let cid := p.categoryId.getD 0
    if existing.type = "income" then
      match findCategory s.incomeCategories cid with
      | none => some ("Income category with ID " ++ toString cid ++ " does not exist")
      | some _ => none
    else if existing.type = "expense" then
      match findCategory s.expenseCategories cid with
      | none => some ("Expense category with ID " ++ toString cid ++ " does not exist")
      | some _ => none
    else none
  else if truthyS p.type && decide (p.type ≠ some existing.type) then
    if p.type = some "income" then
      match findCategory s.incomeCategories existing.categoryId with
      | none => some ("Income category with ID " ++ toString existing.categoryId ++ " does not exist")
      | some _ => none
    else if p.type = some "expense" then
      match findCategory s.expenseCategories existing.categoryId with
      | none => some ("Expense category with ID " ++ toString existing.categoryId ++ " does not exist")
      | some _ => none
    else none
  else none

/-- Merge a transaction patch (`{ ...existingTransaction, ...transaction }`);
unlike the balance arithmetic, the spread keeps falsy present fields. -/
def mergeTransaction (t : Transaction) (p : TransactionPatch) : Transaction :=
  { id := t.id, amount := p.amount.getD t.amount,
    description := p.description.getD t.description, date := p.date.getD t.date,
    accountId := p.accountId.getD t.accountId, type := p.type.getD t.type,
    categoryId := p.categoryId.getD t.categoryId }

/-- `MemStorage.updateTransaction`.  Note the source's order of effects:
account balances are adjusted first, then the category is validated (a
validation failure therefore leaves the balance adjustments in place),
and only then is the stored transaction replaced. -/
def memUpdateTransaction (s : MemState) (id : Nat) (p : TransactionPatch) :
    Except String (Option Transaction) × MemState :=
  match findTransaction s.transactions id with
  | none => (Except.ok none, s)
  | some existing =>
    match memUpdateTransactionBalances s existing p with
    | Except.error e => (Except.error e, s)
    | Except.ok s1 =>
      match memUpdateTransactionValidateCategory s1 existing p with
      | some e => (Except.error e, s1)
      | none =>
        let updated := mergeTransaction existing p
        (Except.ok (some updated),
         { s1 with transactions := setTransaction s1.transactions updated })

/-- `MemStorage.deleteTransaction`: reverts the balance effect on the
owning account (when it exists) and removes the transaction. -/
def memDeleteTransaction (s : MemState) (id : Nat) : Bool × MemState :=
  match findTransaction s.transactions id with
  | none => (false, s)
  | some t =>
    let s1 := match findAccount s.accounts t.accountId with
      | none => s
      | some a =>
        let newBalance := if t.type = "income" then a.balance - t.amount
                          else a.balance + t.amount
        (memUpdateAccount s a.id (balancePatch newBalance)).2
    (true, { s1 with transactions := s1.transactions.filter (fun x => decide (x.id ≠ id)) })

/-- `MemStorage.getTransactions`: all transactions sorted by date,
most recent first (`(a, b) => new Date(b.date) - new Date(a.date)`). -/
def memGetTransactions (s : MemState) : List Transaction :=
  s.transactions.mergeSort (fun a b => decide (b.date.epochDays ≤ a.date.epochDays))

/-- `MemStorage.getTransactionsWithDetails`: attach account and category
names, falling back to the "Unknown" strings (`||` also treats an empty
stored name as missing). -/
def memGetTransactionsWithDetails (s : MemState) : List TransactionWithDetails :=
  (memGetTransactions s).map (fun t =>
    let accountName := match findAccount s.accounts t.accountId with
      | some a => if a.name = "" then "Unknown Account" else a.name
      | none => "Unknown Account"
    let category := if t.type = "income" then findCategory s.incomeCategories t.categoryId
                    else findCategory s.expenseCategories t.categoryId
    let categoryName := match category with
      | some c => if c.name = "" then "Unknown Category" else c.name
      | none => "Unknown Category"
    { toTransaction := t, accountName := accountName, categoryName := categoryName })

/-- `MemStorage.getTransactionsByDateRange`: keeps a transaction when
`(isAfter(d, start) || isSameDay(d, start)) && (isBefore(d, end) ||
isSameDay(d, end))`. -/
def memGetTransactionsByDateRange (s : MemState) (startDate endDate : CalDate) :
    List TransactionWithDetails :=
  (memGetTransactionsWithDetails s).filter (fun t =>
    decide ((startDate.epochDays < t.date.epochDays ∨ t.date.epochDays = startDate.epochDays) ∧
            (t.date.epochDays < endDate.epochDays ∨ t.date.epochDays = endDate.epochDays)))

/-- `getDateRangeForPeriod` as written identically in `MemStorage` and
`DatabaseStorage`.  Its switch labels are `"this_week"`, `"this_month"`,
`"last_month"`, `"this_year"` and `"custom"`, but `TimePeriod` values are
hyphenated (`"this-week"`, `"this-month"`, …), so only the `"custom"`
label ever matches and every other period reaches the `default` branch,
which returns the current month.  The `custom` branch throws when no
range is supplied. -/
def getDateRangeForPeriod (now : CalDate) (period : TimePeriod)
    (customRange : Option DateRange) : Except String (CalDate × CalDate) :=
  match period with
  | TimePeriod.custom =>
    match customRange with
    | none => Except.error "Custom date range is required for custom time period"
    | some r => Except.ok (r.startDate, r.endDate)
  | _ => Except.ok (startOfMonth now, endOfMonth now)

/-- `MemStorage.getTransactionsByTimePeriod`. -/
def memGetTransactionsByTimePeriod (s : MemState) (now : CalDate) (period : TimePeriod)
    (customRange : Option DateRange) : Except String (List TransactionWithDetails) :=
  (getDateRangeForPeriod now period customRange).map
    (fun se => memGetTransactionsByDateRange s se.1 se.2)

/-- A row of the by-category summaries. -/
structure CategorySum where
  categoryId : Nat
  categoryName : String
  sum : ℚ
deriving DecidableEq, Repr

/-- The `Map`-based grouping loop shared by `MemStorage`'s
`getIncomeByCategorySum` and `getExpenseByCategorySum`: entries are kept
in first-encounter order and returned without any positivity filter or
reordering. -/
def memGroupByCategory (txs : List TransactionWithDetails) : List CategorySum :=
  txs.foldl (fun acc t =>
    if acc.any (fun g => decide (g.categoryId = t.categoryId)) then
      acc.map (fun g => if g.categoryId = t.categoryId then
        { g with sum := g.sum + t.amount } else g)
    else
      acc ++ [{ categoryId := t.categoryId, categoryName := t.categoryName,
                sum := 0 + t.amount }]) []

/-- `MemStorage.getIncomeByCategorySum`. -/
def memGetIncomeByCategorySum (s : MemState) (now : CalDate) (period : TimePeriod)
    (customRange : Option DateRange) : Except String (List CategorySum) :=
  (memGetTransactionsByTimePeriod s now period customRange).map
    (fun txs => memGroupByCategory (txs.filter (fun t => decide (t.type = "income"))))

/-- `MemStorage.getExpenseByCategorySum`. -/
def memGetExpenseByCategorySum (s : MemState) (now : CalDate) (period : TimePeriod)
    (customRange : Option DateRange) : Except String (List CategorySum) :=
  (memGetTransactionsByTimePeriod s now period customRange).map
    (fun txs => memGroupByCategory (txs.filter (fun t => decide (t.type = "expense"))))

/-- A row of the monthly report. -/
structure MonthRow where
  month : Nat
  income : ℚ
  expense : ℚ
deriving DecidableEq, Repr, Inhabited

/-- Replace the element at an index (the effect of `rows[i].f += x` on an
array of records). -/
def modifyIdx {α : Type} : List α → Nat → (α → α) → List α
  | [], _, _ => []
  | x :: xs, 0, f => f x :: xs
  | x :: xs, Nat.succ i, f => x :: modifyIdx xs i f

/-- The loop body of `MemStorage.getMonthlyData`: a transaction of the
requested year adds its amount to its month's `income` (type
`"income"`) or `expense` (any other type) column; `getMonth()` is the
0-based index `month - 1`. -/
def monthlyStep (year : Int) (rows : List MonthRow) (t : TransactionWithDetails) :
    List MonthRow :=
  if t.date.year = year then
    if t.type = "income" then
      modifyIdx rows (t.date.month - 1) (fun r => { r with income := r.income + t.amount })
    else
      modifyIdx rows (t.date.month - 1) (fun r => { r with expense := r.expense + t.amount })
  else rows

/-- `MemStorage.getMonthlyData`: twelve zeroed rows, then the loop over
all transactions. -/
def memGetMonthlyData (s : MemState) (year : Int) : List MonthRow :=
  (memGetTransactionsWithDetails s).foldl (monthlyStep year)
    ((List.range 12).map (fun i => { month := i + 1, income := 0, expense := 0 }))

/-- The database tables reached through `db` in `DatabaseStorage`
(drizzle/PostgreSQL).  Tables are lists of rows; `serial` primary keys
are modelled by per-table counters.  The schema declares no foreign-key
constraint on `transactions.account_id` / `category_id`, so inserts
referencing absent rows succeed at the database level. -/
structure DbState where
  accounts : List Account
  incomeCategories : List Category
  expenseCategories : List Category
  transactions : List Transaction
  nextTransactionId : Nat
  nextIncomeCategoryId : Nat
  nextExpenseCategoryId : Nat
deriving DecidableEq, Repr

/-- `DatabaseStorage.createTransaction`: inserts the row, then adjusts
the account balance only `if (account)` — when the referenced account
does not exist the balance update is silently skipped and the insert
stands. -/
def dbCreateTransaction (s : DbState) (t : InsertTransaction) :
    Except String Transaction × DbState :=
  let newTx : Transaction :=
    { id := s.nextTransactionId, amount := t.amount, description := t.description,
      date := t.date, accountId := t.accountId, type := t.type, categoryId := t.categoryId }
  let s1 := { s with transactions := s.transactions ++ [newTx],
                     nextTransactionId := s.nextTransactionId + 1 }
  match findAccount s1.accounts t.accountId with
  | none => (Except.ok newTx, s1)
  | some account =>
    let balanceChange := if t.type = "income" then t.amount else -t.amount
    let account' := { account with balance := account.balance + balanceChange }
    (Except.ok newTx, { s1 with accounts := setAccount s1.accounts account' })

/-- `DatabaseStorage.updateTransaction`: when amount, type or accountId
is present (`!== undefined`), reverses the old effect on the old account
and applies the new effect on the effective account (`accountId ||`,
`type ||`, `amount !== undefined ?`); a missing account on either side is
silently skipped (`if (oldAccount)` / `if (newAccount)`).  Then the row
is patched. -/
def dbUpdateTransaction (s : DbState) (id : Nat) (p : TransactionPatch) :
    Except String (Option Transaction) × DbState :=
  match findTransaction s.transactions id with
  | none => (Except.ok none, s)
  | some existing =>
    let s1 :=
      if p.amount ≠ none ∨ p.type ≠ none ∨ p.accountId ≠ none then
        let s' := match findAccount s.accounts existing.accountId with
          | none => s
          | some oldAccount =>
            let oldBalanceChange :=
              if existing.type = "income" then -existing.amount else existing.amount
            let oldAccount' := { oldAccount with balance := oldAccount.balance + oldBalanceChange }
            { s with accounts := setAccount s.accounts oldAccount' }
        let newAccountId := jsOrN p.accountId existing.accountId
        let newType := jsOrS p.type existing.type
        let newAmount := p.amount.getD existing.amount
        match findAccount s'.accounts newAccountId with
        | none => s'
        | some newAccount =>
          let newBalanceChange := if newType = "income" then newAmount else -newAmount
          let newAccount' := { newAccount with balance := newAccount.balance + newBalanceChange }
          { s' with accounts := setAccount s'.accounts newAccount' }
      else s
    let updated := mergeTransaction existing p
    (Except.ok (some updated),
     { s1 with transactions := setTransaction s1.transactions updated })

/-- `DatabaseStorage.deleteTransaction`. -/
def dbDeleteTransaction (s : DbState) (id : Nat) : Except String Bool × DbState :=
  match findTransaction s.transactions id with
  | none => (Except.ok false, s)
  | some t =>
    let s1 := match findAccount s.accounts t.accountId with
      | none => s
      | some account =>
        let balanceChange := if t.type = "income" then -t.amount else t.amount
        let account' := { account with balance := account.balance + balanceChange }
        { s with accounts := setAccount s.accounts account' }
    (Except.ok true,
     { s1 with transactions := s1.transactions.filter (fun x => decide (x.id ≠ id)) })

/-- `DatabaseStorage.deleteAccount`: `count(*)` over referencing
transactions, throw on a positive count, otherwise delete and report
whether a row was removed. -/
def dbDeleteAccount (s : DbState) (id : Nat) : Except String Bool × DbState :=
  if s.transactions.any (fun t => decide (t.accountId = id)) then
    (Except.error "Cannot delete account with existing transactions", s)
  else
    (Except.ok (s.accounts.any (fun a => decide (a.id = id))),
     { s with accounts := s.accounts.filter (fun a => decide (a.id ≠ id)) })

/-- `DatabaseStorage.deleteIncomeCategory`: only transactions with
`type = 'income'` block the delete. -/
def dbDeleteIncomeCategory (s : DbState) (id : Nat) : Except String Bool × DbState :=
  if s.transactions.any (fun t => decide (t.categoryId = id) && decide (t.type = "income")) then
    (Except.error "Cannot delete category with existing transactions", s)
  else
    (Except.ok (s.incomeCategories.any (fun c => decide (c.id = id))),
     { s with incomeCategories := s.incomeCategories.filter (fun c => decide (c.id ≠ id)) })

/-- `DatabaseStorage.deleteExpenseCategory`: only transactions with
`type = 'expense'` block the delete. -/
def dbDeleteExpenseCategory (s : DbState) (id : Nat) : Except String Bool × DbState :=
  if s.transactions.any (fun t => decide (t.categoryId = id) && decide (t.type = "expense")) then
    (Except.error "Cannot delete category with existing transactions", s)
  else
    (Except.ok (s.expenseCategories.any (fun c => decide (c.id = id))),
     { s with expenseCategories := s.expenseCategories.filter (fun c => decide (c.id ≠ id)) })

/-- `DatabaseStorage.createIncomeCategory`: rejects a name equal to an
existing income-category name under `lower(...)` comparison. -/
def dbCreateIncomeCategory (s : DbState) (c : InsertCategory) :
    Except String Category × DbState :=
  if s.incomeCategories.any (fun x => decide (x.name.toLower = c.name.toLower)) then
    (Except.error ("Income category with name \"" ++ c.name ++ "\" already exists"), s)
  else
    let newCat : Category := { id := s.nextIncomeCategoryId, name := c.name,
                               description := c.description }
    (Except.ok newCat,
     { s with incomeCategories := s.incomeCategories ++ [newCat],
              nextIncomeCategoryId := s.nextIncomeCategoryId + 1 })

/-- `DatabaseStorage.updateIncomeCategory`: `if (category.name)` — the
duplicate check runs only for a truthy (present, non-empty) new name; it
compares case-insensitively and excludes the updated id. -/
def dbUpdateIncomeCategory (s : DbState) (id : Nat) (p : CategoryPatch) :
    Except String (Option Category) × DbState :=
  let dup := match p.name with
    | some n =>
      if n ≠ "" then
        s.incomeCategories.any (fun x =>
          decide (x.name.toLower = n.toLower) && decide (x.id ≠ id))
      else false
    | none => false
  if dup then
    (Except.error ("Income category with name \"" ++ (p.name.getD "") ++ "\" already exists"), s)
  else
    match findCategory s.incomeCategories id with
    | none => (Except.ok none, s)
    | some c =>
      let updated : Category := { id := c.id, name := p.name.getD c.name,
                                  description := p.description.getD c.description }
      (Except.ok (some updated),
       { s with incomeCategories := setCategory s.incomeCategories updated })

/-- `DatabaseStorage.createExpenseCategory`. -/
def dbCreateExpenseCategory (s : DbState) (c : InsertCategory) :
    Except String Category × DbState :=
  if s.expenseCategories.any (fun x => decide (x.name.toLower = c.name.toLower)) then
    (Except.error ("Expense category with name \"" ++ c.name ++ "\" already exists"), s)
  else
    let newCat : Category := { id := s.nextExpenseCategoryId, name := c.name,
                               description := c.description }
    (Except.ok newCat,
     { s with expenseCategories := s.expenseCategories ++ [newCat],
              nextExpenseCategoryId := s.nextExpenseCategoryId + 1 })

/-- `DatabaseStorage.updateExpenseCategory`. -/
def dbUpdateExpenseCategory (s : DbState) (id : Nat) (p : CategoryPatch) :
    Except String (Option Category) × DbState :=
  let dup := match p.name with
    | some n =>
      if n ≠ "" then
        s.expenseCategories.any (fun x =>
          decide (x.name.toLower = n.toLower) && decide (x.id ≠ id))
      else false
    | none => false
  if dup then
    (Except.error ("Expense category with name \"" ++ (p.name.getD "") ++ "\" already exists"), s)
  else
    match findCategory s.expenseCategories id with
    | none => (Except.ok none, s)
    | some c =>
      let updated : Category := { id := c.id, name := p.name.getD c.name,
                                  description := p.description.getD c.description }
      (Except.ok (some updated),
       { s with expenseCategories := setCategory s.expenseCategories updated })

/-- The join of the details query run by
`DatabaseStorage.getTransactionsWithDetails` and its filtered variants:
`JOIN accounts` (inner — a row with no account yields no output row),
`LEFT JOIN` on the category table selected by `type` (a missing category
yields SQL `NULL`, modelled as `""`). -/
def dbDetailRow (s : DbState) (t : Transaction) : Option TransactionWithDetails :=
  match findAccount s.accounts t.accountId with
  | none => none
  | some a =>
    let category := if t.type = "income" then findCategory s.incomeCategories t.categoryId
                    else findCategory s.expenseCategories t.categoryId
    some { toTransaction := t, accountName := a.name,
           categoryName := (category.map (fun c => c.name)).getD "" }

/-- `DatabaseStorage.getTransactionsWithDetails`: the join over all
transactions, `ORDER BY date DESC`. -/
def dbGetTransactionsWithDetails (s : DbState) : List TransactionWithDetails :=
  ((s.transactions.filterMap (dbDetailRow s)).mergeSort
    (fun a b => decide (b.date.epochDays ≤ a.date.epochDays)))

/-- `DatabaseStorage.getTransactionsByDateRange`: the same join with
`WHERE t.date >= start AND t.date <= end`. -/
def dbGetTransactionsByDateRange (s : DbState) (startDate endDate : CalDate) :
    List TransactionWithDetails :=
  (dbGetTransactionsWithDetails s).filter (fun t =>
    decide (startDate.epochDays ≤ t.date.epochDays ∧ t.date.epochDays ≤ endDate.epochDays))

/-- `DatabaseStorage.getTransactions`: `ORDER BY date DESC`. -/
def dbGetTransactions (s : DbState) : List Transaction :=
  s.transactions.mergeSort (fun a b => decide (b.date.epochDays ≤ a.date.epochDays))

/-- The `WHERE` clause of `DatabaseStorage.getIncomeByCategorySum` /
`getExpenseByCategorySum` combined with the inner join on the category
table: the row survives when its type matches, its date lies in the
inclusive window, and its category id resolves. -/
def sqlRowPred (cats : List Category) (typ : String) (startDate endDate : CalDate)
    (t : Transaction) : Bool :=
  decide (t.type = typ) &&
  decide (startDate.epochDays ≤ t.date.epochDays ∧ t.date.epochDays ≤ endDate.epochDays) &&
  (findCategory cats t.categoryId).isSome

/-- One `GROUP BY` output row: the group key, the joined category name
and `SUM(t.amount)` over the group's rows. -/
def sqlGroupFor (cats : List Category) (rows : List Transaction) (cid : Nat) : CategorySum :=
  { categoryId := cid,
    categoryName := ((findCategory cats cid).map (fun c => c.name)).getD "",
    sum := ((rows.filter (fun t => decide (t.categoryId = cid))).map
      (fun t => t.amount)).sum }

/-- The SQL of `DatabaseStorage.getIncomeByCategorySum` /
`getExpenseByCategorySum`: join the category table, keep rows of the
requested type inside the inclusive date window, `GROUP BY` category,
`SUM(amount)`, `HAVING sum > 0`, `ORDER BY sum DESC`. -/
def sqlByCategorySum (cats : List Category) (typ : String) (txs : List Transaction)
    (startDate endDate : CalDate) : List CategorySum :=
  let rows := txs.filter (sqlRowPred cats typ startDate endDate)
  ((((rows.map (fun t => t.categoryId)).dedup.map (sqlGroupFor cats rows)).filter
      (fun g => decide (0 < g.sum))).mergeSort (fun a b => decide (b.sum ≤ a.sum)))

/-- `DatabaseStorage.getIncomeByCategorySum`. -/
def dbGetIncomeByCategorySum (s : DbState) (now : CalDate) (period : TimePeriod)
    (customRange : Option DateRange) : Except String (List CategorySum) :=
  (getDateRangeForPeriod now period customRange).map
    (fun se => sqlByCategorySum s.incomeCategories "income" s.transactions se.1 se.2)

/-- `DatabaseStorage.getExpenseByCategorySum`. -/
def dbGetExpenseByCategorySum (s : DbState) (now : CalDate) (period : TimePeriod)
    (customRange : Option DateRange) : Except String (List CategorySum) :=
  (getDateRangeForPeriod now period customRange).map
    (fun se => sqlByCategorySum s.expenseCategories "expense" s.transactions se.1 se.2)

/-- `SupabaseStorage.getDateRangeForPeriod`.  Its switch labels are the
hyphenated `TimePeriod` values, so every branch is reachable.  Every
branch returns normally; in particular `custom` without a range yields
the all-time interval `(new Date(0), now)` instead of throwing, as does
the `default` branch. -/
def supabaseGetDateRangeForPeriod (now : CalDate) (period : TimePeriod)
    (customRange : Option DateRange) : Except String (CalDate × CalDate) :=
  match period with
  | TimePeriod.all => Except.ok (epochDate, now)
  | TimePeriod.thisMonth => Except.ok (startOfMonth now, now)
  | TimePeriod.lastMonth =>
    Except.ok (startOfMonth (subMonths now 1), endOfMonth (subMonths now 1))
  | TimePeriod.thisWeek => Except.ok (startOfWeekMonday now, now)
  | TimePeriod.lastWeek =>
    Except.ok (startOfWeekMonday (subWeeks now 1), endOfWeekMonday (subWeeks now 1))
  | TimePeriod.thisYear => Except.ok ({ year := now.year, month := 1, day := 1 }, now)
  | TimePeriod.custom =>
    match customRange with
    | none => Except.ok (epochDate, now)
    | some r => Except.ok (r.startDate, r.endDate)

/-- The filter of `SupabaseStorage.getTransactionsByDateRange`:
`isAfter(transactionDate, startDate) && isBefore(transactionDate,
endDate)` — strict on both bounds. -/
def supabaseFilterByDateRange (txs : List TransactionWithDetails)
    (startDate endDate : CalDate) : List TransactionWithDetails :=
  txs.filter (fun t =>
    decide (startDate.epochDays < t.date.epochDays ∧ t.date.epochDays < endDate.epochDays))

/-- The cached balance of the account with the given id, if any. -/
def accountBalance (l : List Account) (id : Nat) : Option ℚ :=
  (findAccount l id).map (fun a => a.balance)

/-- The signed sum of the currently existing transactions referencing an
account: income amounts added, expense amounts subtracted. -/
def signedTxSum (txs : List Transaction) (aid : Nat) : ℚ :=
  ((txs.filter (fun t => decide (t.accountId = aid) && decide (t.type = "income"))).map
    (fun t => t.amount)).sum -
  ((txs.filter (fun t => decide (t.accountId = aid) && decide (t.type = "expense"))).map
    (fun t => t.amount)).sum

/-- C1 fixture: two accounts (balances 100 and 50) and one income category. -/
def c1State : MemState :=
  { accounts :=
      [{ id := 1, name := "A", type := "bank", balance := 100, description := none },
       { id := 2, name := "B", type := "bank", balance := 50, description := none }],
    incomeCategories := [{ id := 1, name := "Salary", description := none }],
    expenseCategories := [], transactions := [],
    accountIdCounter := 3, incomeCategoryIdCounter := 2,
    expenseCategoryIdCounter := 1, transactionIdCounter := 1 }

/-- C1 fixture: a valid income transaction of amount 10 on account 1. -/
def c1Insert : InsertTransaction :=
  { amount := 10, description := "pay", date := { year := 2024, month := 3, day := 15 },
    accountId := 1, type := "income", categoryId := 1 }

/-- C1 fixture: an update moving the transaction to account 2 with a
nonexistent income category 99. -/
def c1Patch : TransactionPatch :=
  { amount := none, description := none, date := none, accountId := some 2,
    type := some "income", categoryId := some 99 }

/-- C2 fixture: a store whose only account has id 1. -/
def c2State : DbState :=
  { accounts := [{ id := 1, name := "A", type := "bank", balance := 100, description := none }],
    incomeCategories := [{ id := 1, name := "Salary", description := none }],
    expenseCategories := [], transactions := [],
    nextTransactionId := 1, nextIncomeCategoryId := 2, nextExpenseCategoryId := 1 }

/-- C2 fixture: an income transaction referencing the absent account 2. -/
def c2Insert : InsertTransaction :=
  { amount := 10, description := "pay", date := { year := 2024, month := 3, day := 15 },
    accountId := 2, type := "income", categoryId := 1 }

/-- C5 fixture: a one-transaction store. -/
def c5State : MemState :=
  { accounts := [{ id := 1, name := "A", type := "bank", balance := 100, description := none }],
    incomeCategories := [{ id := 1, name := "Salary", description := none }],
    expenseCategories := [],
    transactions :=
      [{ id := 1, amount := 5, description := "x",
         date := { year := 2024, month := 3, day := 15 },
         accountId := 1, type := "income", categoryId := 1 }],
    accountIdCounter := 2, incomeCategoryIdCounter := 2,
    expenseCategoryIdCounter := 1, transactionIdCounter := 2 }

/-- C6 fixture: one expense transaction referencing account 5 and
category id 7; income category 7 also exists but has no income
transactions. -/
def c6State : DbState :=
  { accounts := [{ id := 5, name := "A", type := "bank", balance := 20, description := none }],
    incomeCategories := [{ id := 7, name := "Bonus", description := none }],
    expenseCategories := [{ id := 7, name := "Food", description := none }],
    transactions :=
      [{ id := 1, amount := 4, description := "t",
         date := { year := 2024, month := 3, day := 15 },
         accountId := 5, type := "expense", categoryId := 7 }],
    nextTransactionId := 2, nextIncomeCategoryId := 8, nextExpenseCategoryId := 8 }

/-- C7 fixture: income categories `1 ↦ "salary"` and `2 ↦ "x"`. -/
def c7State : DbState :=
  { accounts := [], expenseCategories := [{ id := 1, name := "salary", description := none }],
    incomeCategories :=
      [{ id := 1, name := "salary", description := none },
       { id := 2, name := "x", description := none }],
    transactions := [],
    nextTransactionId := 1, nextIncomeCategoryId := 3, nextExpenseCategoryId := 2 }

/-- C7 fixture for the counterexample: income categories `1 ↦ ""` and
`2 ↦ "x"`. -/
def c7EmptyState : DbState :=
  { accounts := [], expenseCategories := [],
    incomeCategories :=
      [{ id := 1, name := "", description := none },
       { id := 2, name := "x", description := none }],
    transactions := [],
    nextTransactionId := 1, nextIncomeCategoryId := 3, nextExpenseCategoryId := 1 }

/-- The claim's per-group total, written from the spec's words: the sum
of `amount` over the in-range transactions of the matching type grouped
under `cid` (with the category join). -/
def specCategoryGroupSum (cats : List Category) (typ : String) (txs : List Transaction)
    (startDate endDate : CalDate) (cid : Nat) : ℚ :=
  ((txs.filter (fun t => decide (t.categoryId = cid) &&
      sqlRowPred cats typ startDate endDate t)).map (fun t => t.amount)).sum

/-- C4 witness fixture: one income category. -/
def c4Cats : List Category := [{ id := 1, name := "Salary", description := none }]

/-- C4 witness fixture: one in-range income transaction of amount 5. -/
def c4Txs : List Transaction :=
  [{ id := 1, amount := 5, description := "x", date := { year := 2024, month := 3, day := 15 },
     accountId := 1, type := "income", categoryId := 1 }]

/-- C4 counterexample fixture: a store holding a single zero-amount
income transaction. -/
def c4State : MemState :=
  { accounts := [{ id := 1, name := "A", type := "bank", balance := 100, description := none }],
    incomeCategories := [{ id := 1, name := "Salary", description := none }],
    expenseCategories := [], transactions :=
      [{ id := 1, amount := 0, description := "zero",
         date := { year := 2024, month := 3, day := 15 },
         accountId := 1, type := "income", categoryId := 1 }],
    accountIdCounter := 2, incomeCategoryIdCounter := 2,
    expenseCategoryIdCounter := 1, transactionIdCounter := 2 }

/-- C8 witness fixture: the initial store. -/
def c8State : MemState :=
  { accounts := [{ id := 1, name := "A", type := "bank", balance := 100, description := none }],
    incomeCategories := [{ id := 1, name := "Salary", description := none }],
    expenseCategories := [], transactions := [],
    accountIdCounter := 2, incomeCategoryIdCounter := 2,
    expenseCategoryIdCounter := 1, transactionIdCounter := 1 }

/-- C8 witness fixture: the created transaction's payload. -/
def c8Ins : InsertTransaction :=
  { amount := 10, description := "pay", date := { year := 2024, month := 3, day := 15 },
    accountId := 1, type := "income", categoryId := 1 }

/-- C8 witness fixture: the row `createTransaction` returns. -/
def c8Tx : Transaction :=
  { id := 1, amount := 10, description := "pay", date := { year := 2024, month := 3, day := 15 },
    accountId := 1, type := "income", categoryId := 1 }

/-- C8 witness fixture: the store after the create (balance 110). -/
def c8S1 : MemState :=
  { accounts := [{ id := 1, name := "A", type := "bank", balance := 110, description := none }],
    incomeCategories := [{ id := 1, name := "Salary", description := none }],
    expenseCategories := [], transactions := [c8Tx],
    accountIdCounter := 2, incomeCategoryIdCounter := 2,
    expenseCategoryIdCounter := 1, transactionIdCounter := 2 }

/-- The claim's income total for one calendar month of the year. -/
def monthIncomeSum (txs : List Transaction) (year : Int) (m : Nat) : ℚ :=
  ((txs.filter (fun t => decide (t.type = "income") && decide (t.date.year = year) &&
      decide (t.date.month = m))).map (fun t => t.amount)).sum

/-- The claim's expense total for one calendar month of the year. -/
def monthExpenseSum (txs : List Transaction) (year : Int) (m : Nat) : ℚ :=
  ((txs.filter (fun t => decide (t.type = "expense") && decide (t.date.year = year) &&
      decide (t.date.month = m))).map (fun t => t.amount)).sum

/-- Month income total over the detailed rows the loop consumes. -/
def monthIncomeSumD (l : List TransactionWithDetails) (year : Int) (m : Nat) : ℚ :=
  ((l.filter (fun t => decide (t.type = "income") && decide (t.date.year = year) &&
      decide (t.date.month = m))).map (fun t => t.amount)).sum

/-- Month expense total over the detailed rows the loop consumes. -/
def monthExpenseSumD (l : List TransactionWithDetails) (year : Int) (m : Nat) : ℚ :=
  ((l.filter (fun t => decide (t.type = "expense") && decide (t.date.year = year) &&
      decide (t.date.month = m))).map (fun t => t.amount)).sum

/-- C9 witness fixture: a single March 2024 expense of 7. -/
def c9State : MemState :=
  { accounts := [{ id := 1, name := "A", type := "bank", balance := 100, description := none }],
    incomeCategories := [{ id := 1, name := "Salary", description := none }],
    expenseCategories := [{ id := 1, name := "Food", description := none }],
    transactions :=
      [{ id := 1, amount := 7, description := "m",
         date := { year := 2024, month := 3, day := 2 },
         accountId := 1, type := "expense", categoryId := 1 }],
    accountIdCounter := 2, incomeCategoryIdCounter := 2,
    expenseCategoryIdCounter := 2, transactionIdCounter := 2 }

/-- C10 counterexample fixture: a store with one income category and no
accounts. -/
def c10Base : DbState :=
  { accounts := [], incomeCategories := [{ id := 1, name := "Salary", description := none }],
    expenseCategories := [], transactions := [],
    nextTransactionId := 1, nextIncomeCategoryId := 2, nextExpenseCategoryId := 1 }

/-- C10 counterexample fixture: a transaction payload referencing the
absent account 2. -/
def c10Ins : InsertTransaction :=
  { amount := 5, description := "orphan", date := { year := 2024, month := 3, day := 15 },
    accountId := 2, type := "income", categoryId := 1 }

/-- C10 counterexample fixture: the store after
`dbCreateTransaction c10Base c10Ins` — it holds one transaction whose
account id 2 resolves to no account. -/
def c10State : DbState :=
  { accounts := [], incomeCategories := [{ id := 1, name := "Salary", description := none }],
    expenseCategories := [],
    transactions :=
      [{ id := 1, amount := 5, description := "orphan",
         date := { year := 2024, month := 3, day := 15 },
         accountId := 2, type := "income", categoryId := 1 }],
    nextTransactionId := 2, nextIncomeCategoryId := 2, nextExpenseCategoryId := 1 }

/-! ## Theorems -/

/-- C1: the balance invariant does not survive every sequence of
transaction operations.  After a successful `createTransaction` the
invariant holds (account 1: 100 + 10), but an `updateTransaction` that
moves the transaction to account 2 while naming a nonexistent income
category throws only after both balance adjustments have been applied:
the operation fails, the stored transaction still carries account 1 and
amount 10, yet account 1 holds 100 (instead of 100 + 10 = 110) and
account 2 holds 60 (instead of 50 + 0). -/
theorem mem_failed_update_breaks_balance_invariant :
    exceptIsOk (memCreateTransaction c1State c1Insert).1 = true ∧
    accountBalance (memCreateTransaction c1State c1Insert).2.accounts 1 =
      some (100 + signedTxSum (memCreateTransaction c1State c1Insert).2.transactions 1) ∧
    exceptIsOk (memUpdateTransaction (memCreateTransaction c1State c1Insert).2 1 c1Patch).1
      = false ∧
    (memUpdateTransaction (memCreateTransaction c1State c1Insert).2 1 c1Patch).2.transactions =
      (memCreateTransaction c1State c1Insert).2.transactions ∧
    accountBalance
      (memUpdateTransaction (memCreateTransaction c1State c1Insert).2 1 c1Patch).2.accounts 1 =
      some 100 ∧
    100 + signedTxSum
      (memUpdateTransaction (memCreateTransaction c1State c1Insert).2 1 c1Patch).2.transactions 1
      = 110 ∧
    accountBalance
      (memUpdateTransaction (memCreateTransaction c1State c1Insert).2 1 c1Patch).2.accounts 2 =
      some 60 ∧
    50 + signedTxSum
      (memUpdateTransaction (memCreateTransaction c1State c1Insert).2 1 c1Patch).2.transactions 2
      = 50 := by
  norm_num +decide [c1State, c1Insert, c1Patch, memCreateTransaction, memCreateTransactionInsert,
    memUpdateAccount, mergeAccount, balancePatch, findAccount, findCategory, findTransaction,
    setAccount, setTransaction, memUpdateTransaction, memUpdateTransactionBalances,
    memUpdateTransactionBalances.memUpdateTransactionSameAccount,
    memUpdateTransactionValidateCategory, mergeTransaction, jsOrQ, jsOrS, jsOrN,
    truthyN, truthyS, truthyQ, exceptIsOk, accountBalance, signedTxSum,
    List.find?, List.filter]

/-- C2: `DatabaseStorage.createTransaction` with a target account id that
does not exist succeeds anyway: the transaction row is inserted, no
account balance changes, and no error is raised — the balance update is
silently skipped instead of aborting the operation. -/
theorem db_create_transaction_missing_account_succeeds :
    findAccount c2State.accounts 2 = none ∧
    exceptIsOk (dbCreateTransaction c2State c2Insert).1 = true ∧
    (dbCreateTransaction c2State c2Insert).2.accounts = c2State.accounts ∧
    (dbCreateTransaction c2State c2Insert).2.transactions =
      [{ id := 1, amount := 10, description := "pay",
         date := { year := 2024, month := 3, day := 15 },
         accountId := 2, type := "income", categoryId := 1 }] := by
  norm_num [c2State, c2Insert, dbCreateTransaction, findAccount, setAccount, exceptIsOk,
    List.find?]

/-- C3 (amended part): the resolver shared by `DatabaseStorage` and
`MemStorage` throws when `custom` comes without a range, and for every
other period value returns the current month, first day through last
day. -/
theorem resolver_custom_requires_range_and_defaults_to_this_month
    (now : CalDate) (r : Option DateRange) (p : TimePeriod) (hp : p ≠ TimePeriod.custom) :
    getDateRangeForPeriod now TimePeriod.custom none =
      Except.error "Custom date range is required for custom time period" ∧
    getDateRangeForPeriod now p r =
      Except.ok ({ year := now.year, month := now.month, day := 1 },
                 { year := now.year, month := now.month, day := daysInMonth now.year now.month }) := by
  refine ⟨rfl, ?_⟩
  cases p <;> first | rfl | exact absurd rfl hp

/-- Witness for the resolver theorem at `p = all`. -/
theorem resolver_custom_requires_range_witness :
    getDateRangeForPeriod { year := 2024, month := 3, day := 15 } TimePeriod.custom none =
      Except.error "Custom date range is required for custom time period" ∧
    getDateRangeForPeriod { year := 2024, month := 3, day := 15 } TimePeriod.all none =
      Except.ok ({ year := 2024, month := 3, day := 1 }, { year := 2024, month := 3, day := 31 }) :=
  resolver_custom_requires_range_and_defaults_to_this_month
    { year := 2024, month := 3, day := 15 } none TimePeriod.all (by decide)

/-- C3 counterexample: `SupabaseStorage.getDateRangeForPeriod` does NOT
fail when `custom` comes without a range — it returns the all-time
interval `(epoch, now)`, which is also not the this-month interval. -/
theorem supabase_custom_without_range_does_not_fail :
    exceptIsOk (supabaseGetDateRangeForPeriod { year := 2024, month := 3, day := 15 }
      TimePeriod.custom none) = true ∧
    supabaseGetDateRangeForPeriod { year := 2024, month := 3, day := 15 }
      TimePeriod.custom none =
      Except.ok ({ year := 1970, month := 1, day := 1 }, { year := 2024, month := 3, day := 15 }) := by
  exact ⟨rfl, rfl⟩

/-- C5 (amended part): in `MemStorage` and `DatabaseStorage`, the
date-range query selects exactly the detailed transactions whose date
lies in the closed interval `[start, end]`. -/
theorem date_range_inclusive_in_mem_and_db
    (s : MemState) (sd : DbState) (a b : CalDate) (t : TransactionWithDetails) :
    (t ∈ memGetTransactionsByDateRange s a b ↔
      t ∈ memGetTransactionsWithDetails s ∧
        a.epochDays ≤ t.date.epochDays ∧ t.date.epochDays ≤ b.epochDays) ∧
    (t ∈ dbGetTransactionsByDateRange sd a b ↔
      t ∈ dbGetTransactionsWithDetails sd ∧
        a.epochDays ≤ t.date.epochDays ∧ t.date.epochDays ≤ b.epochDays) := by
  constructor
  · simp only [memGetTransactionsByDateRange, List.mem_filter, decide_eq_true_eq]
    exact ⟨fun ⟨h1, h2⟩ => ⟨h1, by omega⟩, fun ⟨h1, h2⟩ => ⟨h1, by omega⟩⟩
  · simp only [dbGetTransactionsByDateRange, List.mem_filter, decide_eq_true_eq]

/-- Witness for the inclusive-range theorem: the fixture transaction
dated 2024-03-15 is selected by the query for `[2024-03-15, 2024-03-15]`. -/
theorem date_range_inclusive_witness :
    { toTransaction :=
        { id := 1, amount := 5, description := "x",
          date := { year := 2024, month := 3, day := 15 },
          accountId := 1, type := "income", categoryId := 1 },
      accountName := "A", categoryName := "Salary" : TransactionWithDetails } ∈
      memGetTransactionsByDateRange c5State
        { year := 2024, month := 3, day := 15 } { year := 2024, month := 3, day := 15 } :=
  ((date_range_inclusive_in_mem_and_db c5State
      { accounts := [], incomeCategories := [], expenseCategories := [], transactions := [],
        nextTransactionId := 1, nextIncomeCategoryId := 1, nextExpenseCategoryId := 1 }
      { year := 2024, month := 3, day := 15 } { year := 2024, month := 3, day := 15 } _).1).mpr
    ⟨by simp [memGetTransactionsWithDetails, memGetTransactions, c5State, List.mergeSort,
        findAccount, findCategory, List.find?], by decide, by decide⟩

/-- C5 counterexample: `SupabaseStorage`'s filter is strict on both
bounds; a transaction dated exactly on the interval boundary (so that
`start ≤ d ≤ end` holds) is NOT selected. -/
theorem supabase_date_range_excludes_boundary :
    (supabaseFilterByDateRange
      [{ toTransaction :=
           { id := 1, amount := 5, description := "x",
             date := { year := 2024, month := 3, day := 15 },
             accountId := 1, type := "income", categoryId := 1 },
         accountName := "A", categoryName := "Salary" }]
      { year := 2024, month := 3, day := 15 } { year := 2024, month := 3, day := 15 }) = [] := by
  simp [supabaseFilterByDateRange]

/-- C6: `deleteAccount` fails with the conflict error and leaves the
state untouched whenever any transaction references the account;
`deleteIncomeCategory` (resp. `deleteExpenseCategory`) fails likewise
exactly when an income-type (resp. expense-type) transaction references
the category id, and is not blocked by transactions of the other type
sharing that id. -/
theorem db_delete_guards_block_referenced_rows (s : DbState) (id : Nat) :
    ((∃ t ∈ s.transactions, t.accountId = id) →
      dbDeleteAccount s id =
        (Except.error "Cannot delete account with existing transactions", s)) ∧
    ((∃ t ∈ s.transactions, t.type = "income" ∧ t.categoryId = id) →
      dbDeleteIncomeCategory s id =
        (Except.error "Cannot delete category with existing transactions", s)) ∧
    ((∀ t ∈ s.transactions, ¬(t.type = "income" ∧ t.categoryId = id)) →
      exceptIsOk (dbDeleteIncomeCategory s id).1 = true) ∧
    ((∃ t ∈ s.transactions, t.type = "expense" ∧ t.categoryId = id) →
      dbDeleteExpenseCategory s id =
        (Except.error "Cannot delete category with existing transactions", s)) ∧
    ((∀ t ∈ s.transactions, ¬(t.type = "expense" ∧ t.categoryId = id)) →
      exceptIsOk (dbDeleteExpenseCategory s id).1 = true) := by
  refine ⟨?_, ?_, ?_, ?_, ?_⟩
  · rintro ⟨t, ht, h⟩
    have hb : s.transactions.any (fun t => decide (t.accountId = id)) = true :=
      List.any_eq_true.mpr ⟨t, ht, by simp [h]⟩
    simp [dbDeleteAccount, hb]
  · rintro ⟨t, ht, h1, h2⟩
    have hb : s.transactions.any
        (fun t => decide (t.categoryId = id) && decide (t.type = "income")) = true :=
      List.any_eq_true.mpr ⟨t, ht, by simp [h1, h2]⟩
    simp [dbDeleteIncomeCategory, hb]
  · intro h
    have hb : s.transactions.any
        (fun t => decide (t.categoryId = id) && decide (t.type = "income")) = false := by
      apply List.any_eq_false.mpr
      intro t ht
      have := h t ht
      simp only [Bool.and_eq_true, decide_eq_true_eq]
      tauto
    simp [dbDeleteIncomeCategory, hb, exceptIsOk]
  · rintro ⟨t, ht, h1, h2⟩
    have hb : s.transactions.any
        (fun t => decide (t.categoryId = id) && decide (t.type = "expense")) = true :=
      List.any_eq_true.mpr ⟨t, ht, by simp [h1, h2]⟩
    simp [dbDeleteExpenseCategory, hb]
  · intro h
    have hb : s.transactions.any
        (fun t => decide (t.categoryId = id) && decide (t.type = "expense")) = false := by
      apply List.any_eq_false.mpr
      intro t ht
      have := h t ht
      simp only [Bool.and_eq_true, decide_eq_true_eq]
      tauto
    simp [dbDeleteExpenseCategory, hb, exceptIsOk]

/-- Witness for the delete guards: deleting the referenced account 5 and
the referenced expense category 7 both fail leaving the state unchanged,
while deleting income category 7 (referenced only by an expense
transaction) is not blocked. -/
theorem db_delete_guards_witness :
    dbDeleteAccount c6State 5 =
      (Except.error "Cannot delete account with existing transactions", c6State) ∧
    dbDeleteExpenseCategory c6State 7 =
      (Except.error "Cannot delete category with existing transactions", c6State) ∧
    exceptIsOk (dbDeleteIncomeCategory c6State 7).1 = true :=
  ⟨(db_delete_guards_block_referenced_rows c6State 5).1 (by decide),
   (db_delete_guards_block_referenced_rows c6State 7).2.2.2.1 (by decide),
   (db_delete_guards_block_referenced_rows c6State 7).2.2.1 (by decide)⟩

/-- C7 (amended part): for both category kinds, creating a category whose
name case-insensitively equals an existing one fails with the conflict
error and leaves the state unchanged; updating to such a name (excluding
the record being updated, by id) fails likewise — provided the new name
is non-empty, because `if (category.name)` skips the check for the falsy
empty string. -/
theorem db_category_name_uniqueness_guard (s : DbState) (c : InsertCategory) (id : Nat)
    (p : CategoryPatch) (n : String) :
    ((∃ x ∈ s.incomeCategories, x.name.toLower = c.name.toLower) →
      dbCreateIncomeCategory s c =
        (Except.error ("Income category with name \"" ++ c.name ++ "\" already exists"), s)) ∧
    (p.name = some n → n ≠ "" →
      (∃ x ∈ s.incomeCategories, x.name.toLower = n.toLower ∧ x.id ≠ id) →
      dbUpdateIncomeCategory s id p =
        (Except.error ("Income category with name \"" ++ n ++ "\" already exists"), s)) ∧
    ((∃ x ∈ s.expenseCategories, x.name.toLower = c.name.toLower) →
      dbCreateExpenseCategory s c =
        (Except.error ("Expense category with name \"" ++ c.name ++ "\" already exists"), s)) ∧
    (p.name = some n → n ≠ "" →
      (∃ x ∈ s.expenseCategories, x.name.toLower = n.toLower ∧ x.id ≠ id) →
      dbUpdateExpenseCategory s id p =
        (Except.error ("Expense category with name \"" ++ n ++ "\" already exists"), s)) := by
  refine ⟨?_, ?_, ?_, ?_⟩
  · rintro ⟨x, hx, h⟩
    have hb : s.incomeCategories.any (fun x => decide (x.name.toLower = c.name.toLower)) = true :=
      List.any_eq_true.mpr ⟨x, hx, by simp [h]⟩
    simp [dbCreateIncomeCategory, hb]
  · rintro hn hne ⟨x, hx, h1, h2⟩
    have hb : s.incomeCategories.any
        (fun x => decide (x.name.toLower = n.toLower) && decide (x.id ≠ id)) = true :=
      List.any_eq_true.mpr ⟨x, hx, by simp [h1, h2]⟩
    simp only [dbUpdateIncomeCategory, hn, hne, ne_eq, not_false_eq_true, if_true, hb]
    simp
  · rintro ⟨x, hx, h⟩
    have hb : s.expenseCategories.any (fun x => decide (x.name.toLower = c.name.toLower)) = true :=
      List.any_eq_true.mpr ⟨x, hx, by simp [h]⟩
    simp [dbCreateExpenseCategory, hb]
  · rintro hn hne ⟨x, hx, h1, h2⟩
    have hb : s.expenseCategories.any
        (fun x => decide (x.name.toLower = n.toLower) && decide (x.id ≠ id)) = true :=
      List.any_eq_true.mpr ⟨x, hx, by simp [h1, h2]⟩
    simp only [dbUpdateExpenseCategory, hn, hne, ne_eq, not_false_eq_true, if_true, hb]
    simp

/-- Witness for the uniqueness guard: creating income and expense
categories named `"salary"` and updating income category 2 to
`"salary"` all fail with the conflict error. -/
theorem db_category_name_uniqueness_witness :
    dbCreateIncomeCategory c7State { name := "salary", description := none } =
      (Except.error "Income category with name \"salary\" already exists", c7State) ∧
    dbUpdateIncomeCategory c7State 2 { name := some "salary", description := none } =
      (Except.error "Income category with name \"salary\" already exists", c7State) ∧
    dbCreateExpenseCategory c7State { name := "salary", description := none } =
      (Except.error "Expense category with name \"salary\" already exists", c7State) :=
  ⟨(db_category_name_uniqueness_guard c7State { name := "salary", description := none } 2
      { name := some "salary", description := none } "salary").1
      ⟨{ id := 1, name := "salary", description := none }, by simp [c7State], rfl⟩,
   (db_category_name_uniqueness_guard c7State { name := "salary", description := none } 2
      { name := some "salary", description := none } "salary").2.1 rfl (by decide)
      ⟨{ id := 1, name := "salary", description := none }, by simp [c7State], rfl, by decide⟩,
   (db_category_name_uniqueness_guard c7State { name := "salary", description := none } 2
      { name := some "salary", description := none } "salary").2.2.1
      ⟨{ id := 1, name := "salary", description := none }, by simp [c7State], rfl⟩⟩

/-- C7 counterexample: updating income category 2 to the empty name
succeeds even though the distinct category 1 already carries the
case-insensitively equal name `""` — the truthiness test
`if (category.name)` skips the duplicate check for the empty string,
leaving two categories with the same name. -/
theorem db_update_category_empty_name_skips_conflict_check :
    (∃ x ∈ c7EmptyState.incomeCategories, x.name.toLower = "".toLower ∧ x.id ≠ 2) ∧
    exceptIsOk (dbUpdateIncomeCategory c7EmptyState 2
      { name := some "", description := none }).1 = true ∧
    (dbUpdateIncomeCategory c7EmptyState 2
      { name := some "", description := none }).2.incomeCategories =
      [{ id := 1, name := "", description := none },
       { id := 2, name := "", description := none }] := by
  refine ⟨⟨{ id := 1, name := "", description := none }, by simp [c7EmptyState], rfl, by decide⟩,
    ?_, ?_⟩ <;>
    simp [dbUpdateIncomeCategory, c7EmptyState, findCategory, setCategory, List.find?, exceptIsOk]

/-- Mapping the details rows back to their transactions undoes the inner
account join: exactly the transactions whose account resolves remain. -/
theorem dbDetailRow_map_toTransaction (sd : DbState) (l : List Transaction) :
    ((l.filterMap (dbDetailRow sd)).map (fun t => t.toTransaction)) =
    l.filter (fun t => (findAccount sd.accounts t.accountId).isSome) := by
  induction l with
  | nil => rfl
  | cons t l ih =>
    rw [List.filterMap_cons, List.filter_cons]
    cases h : findAccount sd.accounts t.accountId with
    | none =>
      simp only [dbDetailRow, h, Option.isSome_none, Bool.false_eq_true, if_false]
      exact ih
    | some a =>
      simp only [dbDetailRow, h, Option.isSome_some, if_true, List.map_cons]
      rw [ih]

/-- C10 (amended part): `getTransactions` of both storages and
`MemStorage.getTransactionsWithDetails` return the stored transactions
sorted by date in descending order (a date-sorted permutation);
`DatabaseStorage.getTransactionsWithDetails` returns, sorted the same
way, exactly the stored transactions whose account id resolves — its
inner `JOIN accounts` drops the others. -/
theorem transactions_sorted_date_descending (s : MemState) (sd : DbState) :
    (memGetTransactions s).Pairwise
      (fun a b => b.date.epochDays ≤ a.date.epochDays) ∧
    (memGetTransactions s).Perm s.transactions ∧
    (dbGetTransactions sd).Pairwise
      (fun a b => b.date.epochDays ≤ a.date.epochDays) ∧
    (dbGetTransactions sd).Perm sd.transactions ∧
    (memGetTransactionsWithDetails s).Pairwise
      (fun a b => b.date.epochDays ≤ a.date.epochDays) ∧
    ((memGetTransactionsWithDetails s).map (fun t => t.toTransaction)).Perm s.transactions ∧
    (dbGetTransactionsWithDetails sd).Pairwise
      (fun a b => b.date.epochDays ≤ a.date.epochDays) ∧
    ((dbGetTransactionsWithDetails sd).map (fun t => t.toTransaction)).Perm
      (sd.transactions.filter (fun t => (findAccount sd.accounts t.accountId).isSome)) := by
  have htrans : ∀ (a b c : Transaction),
      decide (b.date.epochDays ≤ a.date.epochDays) = true →
      decide (c.date.epochDays ≤ b.date.epochDays) = true →
      decide (c.date.epochDays ≤ a.date.epochDays) = true := by
    intro a b c hab hbc
    simp only [decide_eq_true_eq] at *
    omega
  have htotal : ∀ (a b : Transaction),
      (decide (b.date.epochDays ≤ a.date.epochDays) ||
       decide (a.date.epochDays ≤ b.date.epochDays)) = true := by
    intro a b
    simp only [Bool.or_eq_true, decide_eq_true_eq]
    omega
  have htransD : ∀ (a b c : TransactionWithDetails),
      decide (b.date.epochDays ≤ a.date.epochDays) = true →
      decide (c.date.epochDays ≤ b.date.epochDays) = true →
      decide (c.date.epochDays ≤ a.date.epochDays) = true := by
    intro a b c hab hbc
    simp only [decide_eq_true_eq] at *
    omega
  have htotalD : ∀ (a b : TransactionWithDetails),
      (decide (b.date.epochDays ≤ a.date.epochDays) ||
       decide (a.date.epochDays ≤ b.date.epochDays)) = true := by
    intro a b
    simp only [Bool.or_eq_true, decide_eq_true_eq]
    omega
  have hmemSorted : (memGetTransactions s).Pairwise
      (fun a b => b.date.epochDays ≤ a.date.epochDays) :=
    (List.sorted_mergeSort htrans htotal s.transactions).imp (fun h => by simpa using h)
  refine ⟨hmemSorted, List.mergeSort_perm _ _,
    (List.sorted_mergeSort htrans htotal sd.transactions).imp (fun h => by simpa using h),
    List.mergeSort_perm _ _, ?_, ?_, ?_, ?_⟩
  · unfold memGetTransactionsWithDetails
    rw [List.pairwise_map]
    exact hmemSorted
  · unfold memGetTransactionsWithDetails
    rw [List.map_map]
    show (List.map (fun a => a) (memGetTransactions s)).Perm s.transactions
    rw [List.map_id']
    exact List.mergeSort_perm _ _
  · unfold dbGetTransactionsWithDetails
    exact (List.sorted_mergeSort htransD htotalD _).imp (fun h => by simpa using h)
  · unfold dbGetTransactionsWithDetails
    have hp := (List.mergeSort_perm (sd.transactions.filterMap (dbDetailRow sd))
      (fun a b => decide (b.date.epochDays ≤ a.date.epochDays))).map
      (fun t => t.toTransaction)
    rw [dbDetailRow_map_toTransaction] at hp
    exact hp

/-- C10 counterexample: `DatabaseStorage.getTransactionsWithDetails`
does not always return the stored transactions — on the store produced
by `createTransaction` against a missing account (the C2 path), the
inner `JOIN accounts` drops the stored transaction and the query
returns nothing. -/
theorem db_details_drop_orphan_transaction :
    (dbCreateTransaction c10Base c10Ins).2 = c10State ∧
    c10State.transactions ≠ [] ∧
    dbGetTransactionsWithDetails c10State = [] := by
  refine ⟨?_, by decide, ?_⟩
  · norm_num [dbCreateTransaction, c10Base, c10Ins, c10State, findAccount, List.find?]
  · simp [dbGetTransactionsWithDetails, dbDetailRow, c10State, findAccount, List.find?,
      List.mergeSort, List.filterMap]

/-- C4 (amended part): the `DatabaseStorage` SQL groups the in-range
transactions of the matching type by category id, reports each group's
correct amount sum with the joined category name, keeps exactly the
groups with strictly positive sums, and returns them ordered by sum
descending. -/
theorem db_by_category_sum_spec (cats : List Category) (typ : String)
    (txs : List Transaction) (a b : CalDate) :
    (sqlByCategorySum cats typ txs a b).Pairwise (fun g h => h.sum ≤ g.sum) ∧
    (∀ g ∈ sqlByCategorySum cats typ txs a b,
      0 < g.sum ∧ g.sum = specCategoryGroupSum cats typ txs a b g.categoryId ∧
      g.categoryName = ((findCategory cats g.categoryId).map (fun c => c.name)).getD "") ∧
    (∀ cid : Nat, 0 < specCategoryGroupSum cats typ txs a b cid →
      ∃ g ∈ sqlByCategorySum cats typ txs a b, g.categoryId = cid) := by
  have hsum : ∀ cid : Nat,
      (sqlGroupFor cats (txs.filter (sqlRowPred cats typ a b)) cid).sum =
      specCategoryGroupSum cats typ txs a b cid := by
    intro cid
    simp only [sqlGroupFor, specCategoryGroupSum, List.filter_filter]
  refine ⟨?_, ?_, ?_⟩
  · have htrans : ∀ (x y z : CategorySum), decide (y.sum ≤ x.sum) = true →
        decide (z.sum ≤ y.sum) = true → decide (z.sum ≤ x.sum) = true := by
      intro x y z h1 h2
      simp only [decide_eq_true_eq] at *
      exact le_trans h2 h1
    have htotal : ∀ (x y : CategorySum),
        (decide (y.sum ≤ x.sum) || decide (x.sum ≤ y.sum)) = true := by
      intro x y
      simp only [Bool.or_eq_true, decide_eq_true_eq]
      exact le_total _ _
    exact (List.sorted_mergeSort htrans htotal _).imp (fun h => by simpa using h)
  · intro g hg
    simp only [sqlByCategorySum, List.mem_mergeSort, List.mem_filter, List.mem_map,
      decide_eq_true_eq] at hg
    obtain ⟨⟨cid, hcid, rfl⟩, hpos⟩ := hg
    exact ⟨hpos, hsum cid, rfl⟩
  · intro cid hpos
    have hne : ∃ t ∈ txs,
        (decide (t.categoryId = cid) && sqlRowPred cats typ a b t) = true := by
      by_contra hno
      push_neg at hno
      have : txs.filter (fun t => decide (t.categoryId = cid) &&
          sqlRowPred cats typ a b t) = [] :=
        List.filter_eq_nil_iff.mpr (fun t ht => by simp [hno t ht])
      rw [specCategoryGroupSum, this] at hpos
      simp at hpos
    obtain ⟨t, ht, hp⟩ := hne
    simp only [Bool.and_eq_true, decide_eq_true_eq] at hp
    refine ⟨sqlGroupFor cats (txs.filter (sqlRowPred cats typ a b)) cid, ?_, rfl⟩
    simp only [sqlByCategorySum, List.mem_mergeSort, List.mem_filter, List.mem_map,
      decide_eq_true_eq]
    refine ⟨⟨cid, ?_, rfl⟩, ?_⟩
    · apply List.mem_dedup.mpr
      exact List.mem_map.mpr ⟨t, List.mem_filter.mpr ⟨ht, hp.2⟩, hp.1⟩
    · rw [hsum cid]
      exact hpos

/-- Witness for the by-category theorem: category 1's group total is 5,
so a group for it appears in the result. -/
theorem db_by_category_sum_witness :
    0 < specCategoryGroupSum c4Cats "income" c4Txs
      { year := 2024, month := 3, day := 1 } { year := 2024, month := 3, day := 31 } 1 ∧
    ∃ g ∈ sqlByCategorySum c4Cats "income" c4Txs
      { year := 2024, month := 3, day := 1 } { year := 2024, month := 3, day := 31 },
      g.categoryId = 1 := by
  have h : 0 < specCategoryGroupSum c4Cats "income" c4Txs
      { year := 2024, month := 3, day := 1 } { year := 2024, month := 3, day := 31 } 1 := by
    norm_num [specCategoryGroupSum, sqlRowPred, c4Cats, c4Txs, findCategory, List.find?,
      List.filter, CalDate.epochDays]
  exact ⟨h, (db_by_category_sum_spec c4Cats "income" c4Txs
    { year := 2024, month := 3, day := 1 } { year := 2024, month := 3, day := 31 }).2.2 1 h⟩

/-- C4 counterexample: `MemStorage.getIncomeByCategorySum` returns the
group of a zero-amount transaction with sum 0 — the group whose sum is
not strictly positive is NOT excluded (and nothing sorts the groups by
sum). -/
theorem mem_income_by_category_keeps_nonpositive_group :
    memGetIncomeByCategorySum c4State { year := 2024, month := 3, day := 20 } TimePeriod.custom
      (some { startDate := { year := 2024, month := 3, day := 1 },
              endDate := { year := 2024, month := 3, day := 31 } }) =
      Except.ok [{ categoryId := 1, categoryName := "Salary", sum := 0 }] := by
  norm_num +decide [memGetIncomeByCategorySum, memGetTransactionsByTimePeriod, getDateRangeForPeriod,
    memGetTransactionsByDateRange, memGetTransactionsWithDetails, memGetTransactions,
    memGroupByCategory, c4State, findAccount, findCategory, List.find?, List.mergeSort,
    Except.map, CalDate.epochDays]

/-- An account found by id carries that id. -/
theorem findAccount_id {l : List Account} {id : Nat} {a : Account}
    (h : findAccount l id = some a) : a.id = id := by
  unfold findAccount at h
  have := List.find?_some h
  simpa using this

/-- Replacing the row found at an id makes the lookup return the
replacement. -/
theorem findAccount_setAccount {l : List Account} {a a' : Account}
    (hid : a'.id = a.id) (h : findAccount l a.id = some a) :
    findAccount (setAccount l a') a.id = some a' := by
  induction l with
  | nil => simp [findAccount] at h
  | cons x xs ih =>
    unfold findAccount at h ⊢
    unfold setAccount
    by_cases hx : x.id = a.id
    · rw [List.find?_cons_of_pos _ (by simp [hx])] at h
      simp only [List.map_cons, if_pos (show x.id = a'.id by rw [hid]; exact hx)]
      rw [List.find?_cons_of_pos _ (by simp [hid])]
    · rw [List.find?_cons_of_neg _ (by simp [hx])] at h
      simp only [List.map_cons, if_neg (show ¬x.id = a'.id by rw [hid]; exact hx)]
      rw [List.find?_cons_of_neg _ (by simp [hx])]
      exact ih h

/-- Two in-place replacements at the same id collapse to the second. -/
theorem setAccount_setAccount {l : List Account} {a₁ a₂ : Account}
    (h : a₁.id = a₂.id) : setAccount (setAccount l a₁) a₂ = setAccount l a₂ := by
  unfold setAccount
  rw [List.map_map]
  apply List.map_congr_left
  intro x _
  by_cases hx : x.id = a₁.id
  · simp only [Function.comp_apply, if_pos hx, if_pos h, if_pos (hx.trans h)]
  · simp only [Function.comp_apply, if_pos, if_neg hx]

/-- Replacing at an id that occurs nowhere is the identity. -/
theorem setAccount_of_not_mem {l : List Account} {a : Account}
    (h : ∀ x ∈ l, x.id ≠ a.id) : setAccount l a = l := by
  unfold setAccount
  have : l.map (fun x => if x.id = a.id then a else x) = l.map id :=
    List.map_congr_left (fun x hx => by simp [h x hx])
  simpa using this

/-- With duplicate-free ids, writing back the row that the lookup
returns is the identity. -/
theorem setAccount_self {l : List Account} {a : Account}
    (hnd : (l.map (fun x => x.id)).Nodup) (h : findAccount l a.id = some a) :
    setAccount l a = l := by
  induction l with
  | nil => simp [findAccount] at h
  | cons x xs ih =>
    simp only [List.map_cons, List.nodup_cons] at hnd
    obtain ⟨hx_not, hnd'⟩ := hnd
    unfold findAccount at h
    by_cases hx : x.id = a.id
    · rw [List.find?_cons_of_pos _ (by simp [hx])] at h
      injection h with h
      subst h
      unfold setAccount
      simp only [List.map_cons, ite_self]
      have : setAccount xs x = xs :=
        setAccount_of_not_mem (fun y hy hc => hx_not (hc ▸ List.mem_map_of_mem _ hy))
      unfold setAccount at this
      rw [this]
    · rw [List.find?_cons_of_neg _ (by simp [hx])] at h
      unfold setAccount
      simp only [List.map_cons, if_neg (fun hc => hx (findAccount_id h ▸ hc))]
      have := ih hnd' h
      unfold setAccount at this
      rw [this]

/-- The successful insert step of `createTransaction` followed by
`deleteTransaction` of the new row restores the accounts and the
transactions exactly. -/
theorem mem_insert_then_delete {s : MemState} {t : InsertTransaction} {account : Account}
    {tx : Transaction} {s1 : MemState}
    (hids : (s.accounts.map (fun a => a.id)).Nodup)
    (hfresh : ∀ tr ∈ s.transactions, tr.id < s.transactionIdCounter)
    (hfa : findAccount s.accounts t.accountId = some account)
    (h : memCreateTransactionInsert s t account = (Except.ok tx, s1)) :
    (memDeleteTransaction s1 tx.id).1 = true ∧
    (memDeleteTransaction s1 tx.id).2.accounts = s.accounts ∧
    (memDeleteTransaction s1 tx.id).2.transactions = s.transactions := by
  have haid : account.id = t.accountId := findAccount_id hfa
  have hfa' : findAccount s.accounts account.id = some account := by rw [haid]; exact hfa
  -- name the inserted row and the balance-adjusted account
  simp only [memCreateTransactionInsert, Prod.mk.injEq, Except.ok.injEq] at h
  obtain ⟨htx, hs1⟩ := h
  set newTx : Transaction :=
    { id := s.transactionIdCounter, amount := t.amount, description := t.description,
      date := t.date, accountId := t.accountId, type := t.type,
      categoryId := t.categoryId } with hnewTx
  set newBal : ℚ := if t.type = "income" then account.balance + t.amount
                    else account.balance - t.amount with hnewBal
  have hupd : memUpdateAccount
      { s with transactions := s.transactions ++ [newTx],
               transactionIdCounter := s.transactionIdCounter + 1 }
      account.id (balancePatch newBal) =
      (some (mergeAccount account (balancePatch newBal)),
       { s with transactions := s.transactions ++ [newTx],
                transactionIdCounter := s.transactionIdCounter + 1,
                accounts := setAccount s.accounts (mergeAccount account (balancePatch newBal)) }) := by
    simp only [memUpdateAccount, hfa']
  rw [hupd] at hs1
  subst htx hs1
  set a' : Account := mergeAccount account (balancePatch newBal) with ha'
  have ha'id : a'.id = account.id := rfl
  have ha'bal : a'.balance = newBal := rfl
  -- the delete finds the freshly inserted row
  have hfindTx : findTransaction (s.transactions ++ [newTx]) newTx.id = some newTx := by
    unfold findTransaction
    rw [List.find?_append]
    have h1 : s.transactions.find? (fun tr => decide (tr.id = newTx.id)) = none :=
      List.find?_eq_none.mpr (fun tr htr => by
        simp only [decide_eq_true_eq]
        exact Nat.ne_of_lt (hfresh tr htr))
    rw [h1]
    simp [List.find?]
  -- the delete finds the balance-adjusted account
  have hfindA : findAccount (setAccount s.accounts a') newTx.accountId = some a' := by
    show findAccount (setAccount s.accounts a') t.accountId = some a'
    rw [← haid]
    exact findAccount_setAccount ha'id hfa'
  -- the reverted balance is the original one
  have hrevert : (if newTx.type = "income" then a'.balance - newTx.amount
                  else a'.balance + newTx.amount) = account.balance := by
    show (if t.type = "income" then a'.balance - t.amount
          else a'.balance + t.amount) = account.balance
    rw [ha'bal, hnewBal]
    by_cases hty : t.type = "income" <;> simp [hty]
  -- writing that balance back restores the original account row
  have hmerge : mergeAccount a' (balancePatch (if newTx.type = "income"
      then a'.balance - newTx.amount else a'.balance + newTx.amount)) = account := by
    rw [hrevert]
    rfl
  have hfindA2 : findAccount (setAccount s.accounts a') a'.id = some a' := by
    rw [ha'id]
    exact findAccount_setAccount ha'id hfa'
  have haccs : setAccount (setAccount s.accounts a') account = s.accounts := by
    rw [setAccount_setAccount ha'id, setAccount_self hids hfa']
  have htxs : (s.transactions ++ [newTx]).filter (fun x => decide (x.id ≠ newTx.id)) =
      s.transactions := by
    rw [List.filter_append]
    have h1 : s.transactions.filter (fun x => decide (x.id ≠ newTx.id)) = s.transactions :=
      List.filter_eq_self.mpr (fun tr htr => by
        simp only [decide_eq_true_eq]
        exact Nat.ne_of_lt (hfresh tr htr))
    have h2 : ([newTx] : List Transaction).filter (fun x => decide (x.id ≠ newTx.id)) = [] := by
      simp [List.filter]
    rw [h1, h2, List.append_nil]
  simp only [memDeleteTransaction, hfindTx, hfindA, memUpdateAccount, hfindA2, hmerge, haccs,
    htxs]
  exact ⟨trivial, trivial, trivial⟩

/-- C8: for every store with duplicate-free account ids and a fresh
transaction counter, a successful `createTransaction` followed by
`deleteTransaction` of the transaction just created restores every
account balance (indeed the whole account table) and the transaction
table to exactly their pre-create values. -/
theorem create_then_delete_restores_state
    (s : MemState) (t : InsertTransaction) (tx : Transaction) (s1 : MemState)
    (hids : (s.accounts.map (fun a => a.id)).Nodup)
    (hfresh : ∀ tr ∈ s.transactions, tr.id < s.transactionIdCounter)
    (h : memCreateTransaction s t = (Except.ok tx, s1)) :
    (memDeleteTransaction s1 tx.id).1 = true ∧
    (memDeleteTransaction s1 tx.id).2.accounts = s.accounts ∧
    (memDeleteTransaction s1 tx.id).2.transactions = s.transactions := by
  unfold memCreateTransaction at h
  split at h
  · simp at h
  · rename_i account hfa
    split at h
    · split at h
      · simp at h
      · exact mem_insert_then_delete hids hfresh hfa h
    · split at h
      · split at h
        · simp at h
        · exact mem_insert_then_delete hids hfresh hfa h
      · simp at h

/-- Witness for the create/delete inverse: deleting the freshly created
transaction restores the fixture store's accounts and transactions. -/
theorem create_then_delete_witness :
    (memDeleteTransaction c8S1 c8Tx.id).1 = true ∧
    (memDeleteTransaction c8S1 c8Tx.id).2.accounts = c8State.accounts ∧
    (memDeleteTransaction c8S1 c8Tx.id).2.transactions = c8State.transactions :=
  create_then_delete_restores_state c8State c8Ins c8Tx c8S1 (by decide) (by decide)
    (by norm_num [memCreateTransaction, c8State, c8Ins, c8Tx, c8S1,
      memCreateTransactionInsert, memUpdateAccount, mergeAccount, balancePatch,
      findAccount, findCategory, setAccount, List.find?])

/-- `modifyIdx` preserves the length. -/
theorem modifyIdx_length {α : Type} (l : List α) (i : Nat) (f : α → α) :
    (modifyIdx l i f).length = l.length := by
  induction l generalizing i with
  | nil => rfl
  | cons x xs ih =>
    cases i with
    | zero => simp [modifyIdx]
    | succ j => simp [modifyIdx, ih]

/-- Reading back the modified index. -/
theorem getD_modifyIdx_self {α : Type} (l : List α) (i : Nat) (f : α → α) (d : α)
    (h : i < l.length) : (modifyIdx l i f).getD i d = f (l.getD i d) := by
  induction l generalizing i with
  | nil => simp at h
  | cons x xs ih =>
    cases i with
    | zero => simp [modifyIdx]
    | succ j =>
      simp only [modifyIdx, List.getD_cons_succ]
      exact ih j (by simpa using h)

/-- Reading an index other than the modified one. -/
theorem getD_modifyIdx_ne {α : Type} (l : List α) (i j : Nat) (f : α → α) (d : α)
    (h : i ≠ j) : (modifyIdx l j f).getD i d = l.getD i d := by
  induction l generalizing i j with
  | nil => rfl
  | cons x xs ih =>
    cases j with
    | zero =>
      cases i with
      | zero => exact absurd rfl h
      | succ i' => simp [modifyIdx]
    | succ j' =>
      cases i with
      | zero => simp [modifyIdx]
      | succ i' =>
        simp only [modifyIdx, List.getD_cons_succ]
        exact ih i' j' (fun hc => h (by omega))

/-- One loop step preserves the number of rows. -/
theorem monthlyStep_length (year : Int) (rows : List MonthRow) (t : TransactionWithDetails) :
    (monthlyStep year rows t).length = rows.length := by
  unfold monthlyStep
  split
  · split <;> apply modifyIdx_length
  · rfl

/-- The loop preserves the number of rows. -/
theorem monthly_foldl_length (year : Int) (l : List TransactionWithDetails)
    (rows : List MonthRow) :
    (l.foldl (monthlyStep year) rows).length = rows.length := by
  induction l generalizing rows with
  | nil => rfl
  | cons t l ih =>
    simp only [List.foldl_cons]
    rw [ih, monthlyStep_length]

/-- Running the loop adds, to every row, exactly the matching month's
income and expense contributions of the consumed transactions. -/
theorem monthly_foldl_getD (year : Int) (l : List TransactionWithDetails) :
    ∀ rows : List MonthRow, rows.length = 12 →
    (∀ t ∈ l, 1 ≤ t.date.month ∧ t.date.month ≤ 12) →
    (∀ t ∈ l, t.type = "income" ∨ t.type = "expense") →
    ∀ i : Nat, i < 12 →
      (l.foldl (monthlyStep year) rows).getD i default =
        { month := (rows.getD i default).month,
          income := (rows.getD i default).income + monthIncomeSumD l year (i + 1),
          expense := (rows.getD i default).expense + monthExpenseSumD l year (i + 1) } := by
  induction l with
  | nil =>
    intro rows _ _ _ i _
    simp [monthIncomeSumD, monthExpenseSumD]
  | cons t l ih =>
    intro rows hlen hm htype i hi
    have hmt := hm t (List.mem_cons_self t l)
    have hstep : ∀ j : Nat, j < 12 →
        (monthlyStep year rows t).getD j default =
          { month := (rows.getD j default).month,
            income := (rows.getD j default).income +
              (if t.type = "income" ∧ t.date.year = year ∧ t.date.month = j + 1
               then t.amount else 0),
            expense := (rows.getD j default).expense +
              (if t.type = "expense" ∧ t.date.year = year ∧ t.date.month = j + 1
               then t.amount else 0) } := by
      intro j hj
      unfold monthlyStep
      by_cases hy : t.date.year = year
      · rw [if_pos hy]
        rcases htype t (List.mem_cons_self t l) with hty | hty
        · rw [if_pos hty]
          by_cases hij : j = t.date.month - 1
          · have hmon : t.date.month = j + 1 := by omega
            rw [← hij, getD_modifyIdx_self _ _ _ _ (by omega)]
            have : ¬(t.type = "expense" ∧ t.date.year = year ∧ t.date.month = j + 1) := by
              intro hc
              rw [hty] at hc
              exact absurd hc.1 (by decide)
            rw [if_pos ⟨hty, hy, hmon⟩, if_neg this]
            simp
          · have hmon : ¬t.date.month = j + 1 := by omega
            rw [getD_modifyIdx_ne _ _ _ _ _ hij]
            rw [if_neg (fun hc => hmon hc.2.2), if_neg (fun hc => hmon hc.2.2)]
            simp
        · rw [if_neg (by rw [hty]; decide)]
          by_cases hij : j = t.date.month - 1
          · have hmon : t.date.month = j + 1 := by omega
            rw [← hij, getD_modifyIdx_self _ _ _ _ (by omega)]
            have : ¬(t.type = "income" ∧ t.date.year = year ∧ t.date.month = j + 1) := by
              intro hc
              rw [hty] at hc
              exact absurd hc.1 (by decide)
            rw [if_neg this, if_pos ⟨hty, hy, hmon⟩]
            simp
          · have hmon : ¬t.date.month = j + 1 := by omega
            rw [getD_modifyIdx_ne _ _ _ _ _ hij]
            rw [if_neg (fun hc => hmon hc.2.2), if_neg (fun hc => hmon hc.2.2)]
            simp
      · rw [if_neg hy]
        rw [if_neg (fun hc => hy hc.2.1), if_neg (fun hc => hy hc.2.1)]
        simp
    have hsumI : monthIncomeSumD (t :: l) year (i + 1) =
        (if t.type = "income" ∧ t.date.year = year ∧ t.date.month = i + 1
         then t.amount else 0) + monthIncomeSumD l year (i + 1) := by
      unfold monthIncomeSumD
      by_cases hc : t.type = "income" ∧ t.date.year = year ∧ t.date.month = i + 1
      · rw [if_pos hc]
        rw [List.filter_cons_of_pos (by simp [hc.1, hc.2.1, hc.2.2])]
        simp
      · rw [if_neg hc]
        rw [List.filter_cons_of_neg (by simpa [Bool.and_eq_true, decide_eq_true_eq,
          and_assoc] using hc)]
        simp
    have hsumE : monthExpenseSumD (t :: l) year (i + 1) =
        (if t.type = "expense" ∧ t.date.year = year ∧ t.date.month = i + 1
         then t.amount else 0) + monthExpenseSumD l year (i + 1) := by
      unfold monthExpenseSumD
      by_cases hc : t.type = "expense" ∧ t.date.year = year ∧ t.date.month = i + 1
      · rw [if_pos hc]
        rw [List.filter_cons_of_pos (by simp [hc.1, hc.2.1, hc.2.2])]
        simp
      · rw [if_neg hc]
        rw [List.filter_cons_of_neg (by simpa [Bool.and_eq_true, decide_eq_true_eq,
          and_assoc] using hc)]
        simp
    simp only [List.foldl_cons]
    rw [ih (monthlyStep year rows t)
        (by rw [monthlyStep_length]; exact hlen)
        (fun x hx => hm x (List.mem_cons_of_mem t hx))
        (fun x hx => htype x (List.mem_cons_of_mem t hx)) i hi]
    rw [hstep i hi, hsumI, hsumE]
    simp only [MonthRow.mk.injEq]
    exact ⟨trivial, by ring, by ring⟩

/-- The detail decoration and the date-descending reordering do not
change a month's income total. -/
theorem monthIncomeSumD_details (s : MemState) (year : Int) (m : Nat) :
    monthIncomeSumD (memGetTransactionsWithDetails s) year m =
    monthIncomeSum s.transactions year m := by
  unfold monthIncomeSumD monthIncomeSum memGetTransactionsWithDetails memGetTransactions
  rw [List.filter_map, List.map_map]
  exact List.Perm.sum_eq (List.Perm.map _ (List.Perm.filter _ (List.mergeSort_perm _ _)))

/-- The detail decoration and the date-descending reordering do not
change a month's expense total. -/
theorem monthExpenseSumD_details (s : MemState) (year : Int) (m : Nat) :
    monthExpenseSumD (memGetTransactionsWithDetails s) year m =
    monthExpenseSum s.transactions year m := by
  unfold monthExpenseSumD monthExpenseSum memGetTransactionsWithDetails memGetTransactions
  rw [List.filter_map, List.map_map]
  exact List.Perm.sum_eq (List.Perm.map _ (List.Perm.filter _ (List.mergeSort_perm _ _)))

/-- The initial rows are `month = i + 1` with zero totals. -/
theorem initRows_getD (i : Nat) (h : i < 12) :
    ((List.range 12).map
      (fun k => ({ month := k + 1, income := 0, expense := 0 } : MonthRow))).getD i default =
    { month := i + 1, income := 0, expense := 0 } := by
  simp [List.getD_eq_getElem?_getD, List.getElem?_map, List.getElem?_range h]

/-- C9: for every store whose transactions carry months 1–12 and types
income/expense, `getMonthlyData(year)` returns exactly 12 rows whose
`i`-th row is month `i + 1` with the independent income and expense
sums over that calendar month of the year; months with no transactions
therefore report 0/0. -/
theorem mem_monthly_data_spec (s : MemState) (year : Int)
    (hm : ∀ t ∈ s.transactions, 1 ≤ t.date.month ∧ t.date.month ≤ 12)
    (htype : ∀ t ∈ s.transactions, t.type = "income" ∨ t.type = "expense") :
    (memGetMonthlyData s year).length = 12 ∧
    ∀ i : Nat, i < 12 →
      (memGetMonthlyData s year).getD i default =
        { month := i + 1, income := monthIncomeSum s.transactions year (i + 1),
          expense := monthExpenseSum s.transactions year (i + 1) } := by
  have hmem : ∀ t ∈ memGetTransactionsWithDetails s, t.toTransaction ∈ s.transactions := by
    intro t ht
    unfold memGetTransactionsWithDetails memGetTransactions at ht
    obtain ⟨u, hu, rfl⟩ := List.mem_map.mp ht
    exact List.mem_mergeSort.mp hu
  have hmD : ∀ t ∈ memGetTransactionsWithDetails s,
      1 ≤ t.date.month ∧ t.date.month ≤ 12 :=
    fun t ht => hm t.toTransaction (hmem t ht)
  have htypeD : ∀ t ∈ memGetTransactionsWithDetails s,
      t.type = "income" ∨ t.type = "expense" :=
    fun t ht => htype t.toTransaction (hmem t ht)
  constructor
  · unfold memGetMonthlyData
    rw [monthly_foldl_length]
    simp
  · intro i hi
    unfold memGetMonthlyData
    rw [monthly_foldl_getD year _ _ (by simp) hmD htypeD i hi]
    rw [initRows_getD i hi, monthIncomeSumD_details, monthExpenseSumD_details]
    simp

/-- Witness for the monthly report: the fixture store yields 12 rows and
row index 2 reports month 3 with its sums. -/
theorem mem_monthly_data_witness :
    (memGetMonthlyData c9State 2024).length = 12 ∧
    (memGetMonthlyData c9State 2024).getD 2 default =
      { month := 3, income := monthIncomeSum c9State.transactions 2024 3,
        expense := monthExpenseSum c9State.transactions 2024 3 } :=
  ⟨(mem_monthly_data_spec c9State 2024 (by decide) (by decide)).1,
   (mem_monthly_data_spec c9State 2024 (by decide) (by decide)).2 2 (by decide)⟩

end ExpenseTracker
